import Mathlib

/-!
Shallow embedding of the data-analysis assistant in `main.py`: the remote
resource fetcher (`fetch_url_content`), the chart builder (`create_chart`),
the result renderer (`display_result`), the session-state ingestion paths,
and the analyze-button handler.  External library calls (HTTP client, HTML
parser, table parser, PDF extractor, LLM agent) are modelled as explicit
environment parameters or abstract outcomes; pure Python logic is translated
directly.
-/

namespace Dinosaur

/-- Python string slicing `t[:n]`: the first `n` characters (code
points) of `t`, or all of `t` when it is shorter. -/
def pyPrefix (t : String) (n : Nat) : String :=
  String.mk (t.toList.take n)

/-- A pandas DataFrame as produced by the normalizers: named columns plus
row data.  The agent treats it opaquely, so cell contents are strings. -/
structure Frame where
  columns : List String
  data : List (List String)
deriving Repr, DecidableEq

/-- One extracted table from the HTML branch of `fetch_url_content`:
the Python dict with keys `table_id`, `data`, `columns`. -/
structure TaggedFrame where
  table_id : String
  frame : Frame
deriving Repr, DecidableEq

/-- Substring test on character lists: Python's `needle in hay` for the
content-type checks in `fetch_url_content`. -/
def prefixMatches : List Char → List Char → Bool
  | [], _ => true
  | _ :: _, [] => false
  | a :: as, b :: bs => a == b && prefixMatches as bs

/-- Whether `needle` occurs contiguously anywhere in `hay`. -/
def containsSeq : List Char → List Char → Bool
  | hay, needle =>
    match hay with
    | [] => prefixMatches needle []
    | _ :: rest => prefixMatches needle (hay) || containsSeq rest needle

/-- Python `needle in hay` on strings (the needles used are non-empty). -/
def strContains (hay needle : String) : Bool :=
  containsSeq hay.toList needle.toList

/-- Characters allowed in a URL scheme by `urllib.parse` after the first:
letters, digits, `+`, `-`, `.`. -/
def isSchemeChar (c : Char) : Bool :=
  c.isAlphanum || c == '+' || c == '-' || c == '.'

/-- Split a character list at the first colon, returning the part before
and the part after, or `none` if no colon occurs. -/
def findColon : List Char → Option (List Char × List Char)
  | [] => none
  | c :: cs =>
    if c == ':' then some ([], cs)
    else
      match findColon cs with
      | some (pre, post) => some (c :: pre, post)
      | none => none

/-- `urllib.parse.urlparse(url).scheme`: the (lowercased) prefix before the
first colon when it starts with a letter and uses only scheme characters;
otherwise the empty string. -/
def urlparse_scheme (url : String) : String :=
  match findColon url.toList with
  | none => ""
  | some (pre, _) =>
    match pre with
    | [] => ""
    | c0 :: _ =>
      if c0.isAlpha && pre.all isSchemeChar then
        String.mk (pre.map Char.toLower)
      else ""

/-- Lines 203-204 of `main.py`: if `urlparse(target_url).scheme` is empty
(falsy), prefix the address with `https://`; otherwise leave it unchanged.
This is the address the HTTP GET is issued against. -/
def resolveUrl (target_url : String) : String :=
  if urlparse_scheme target_url = "" then "https://" ++ target_url
  else target_url

/-- Outcome of parsing one `<table>` element with `pd.read_html`: a frame,
or the message of the exception it raised. -/
abbrev TableParse := Except String Frame

/-- Abstract HTTP response: status, declared content type, body text, and
the outcomes of the external parsers applied to the body.  `findTables`
lists `soup.find_all table` results in document order, each with its
`pd.read_html` outcome; `strippedText` is `soup.get_text` after the
script/style elements are decomposed; `pdfPages` is the per-page
`extract_text` outcome of `PyPDF2`. -/
structure HttpResponse where
  status : Nat
  contentType : String
  text : String
  findTables : List TableParse
  strippedText : String
  pdfPages : Except String (List String)
deriving Repr

/-- Outcome of `requests.get`: a raised network exception (with its
message) or a buffered response. -/
inductive NetResult where
  | err (msg : String)
  | ok (r : HttpResponse)
deriving Repr

/-- The dict returned by `fetch_url_content`, one constructor per shape:
html (tables plus stripped text), pdf (joined page text), unknown
(raw body), or the error dict from the `except` clause. -/
inductive FetchResult where
  | htmlResult (tables : List TaggedFrame) (text : String)
  | pdfResult (text : String)
  | unknownResult (content : String)
  | errorResult (message : String)
deriving Repr, DecidableEq

/-- The `status` field of the returned dict: `"error"` exactly for the
except-clause dict, `"success"` for the three success shapes. -/
def fetchStatus : FetchResult → String
  | FetchResult.errorResult _ => "error"
  | _ => "success"

/-- Message of the `requests.HTTPError` raised by `raise_for_status` on a
4xx/5xx status (its exact text comes from the HTTP library; only the fact
that it is carried into the error dict matters). -/
def http_error_message (r : HttpResponse) : String :=
  toString r.status ++ " Error for url"

/-- `exceptIsOk e` is true when the table parse succeeded. -/
def exceptIsOk : TableParse → Bool
  | Except.ok _ => true
  | Except.error _ => false

/-- The list comprehension at lines 212-216: enumerate the table elements,
tag each parsed frame `table_<i>`, and propagate the first `read_html`
exception (the comprehension evaluates in document order and raises at the
first failing element). -/
def tagTables : Nat → List TableParse → Except String (List TaggedFrame)
  | _, [] => Except.ok []
  | _, Except.error m :: _ => Except.error m
  | i, Except.ok f :: rest =>
    match tagTables (i + 1) rest with
    | Except.error m => Except.error m
    | Except.ok tfs =>
      Except.ok ({ table_id := "table_" ++ toString i, frame := f } :: tfs)

/-- Body of the `try` block of `fetch_url_content` after the GET returned:
`raise_for_status` (raises on status 400-599, modelled as 400 ≤ status),
then classification by content type; any raise becomes the error dict. -/
def processResponse : NetResult → FetchResult
  | NetResult.err m => FetchResult.errorResult m
  | NetResult.ok r =>
    if 400 ≤ r.status then FetchResult.errorResult (http_error_message r)
    else if strContains r.contentType "text/html" then
      match tagTables 0 r.findTables with
      | Except.error m => FetchResult.errorResult m
      | Except.ok tfs => FetchResult.htmlResult tfs r.strippedText
    else if strContains r.contentType "application/pdf" then
      match r.pdfPages with
      | Except.error m => FetchResult.errorResult m
      | Except.ok pages => FetchResult.pdfResult (String.join pages)
    else FetchResult.unknownResult r.text

/-- `fetch_url_content` (lines 200-240): resolve the scheme, issue the GET
against the resolved address (the network is the environment `net`), and
process the outcome; the surrounding `try/except` maps every raise to the
error dict, so the function is total. -/
def fetch_url_content (net : String → NetResult) (target_url : String) :
    FetchResult :=
  processResponse (net (resolveUrl target_url))

/-- A chart spec inside an Analysis Result: the dict consumed by
`create_chart` with keys `columns` (category labels), `data` (numeric
values), and optional `title`, `x_label`, `y_label`. -/
structure ChartSpec where
  columns : List String
  data : List Int
  title : Option String
  x_label : Option String
  y_label : Option String
deriving Repr, DecidableEq

/-- The two chart kinds `display_result` ever requests from
`create_chart` (the Python argument is the string `"bar"` or `"line"`). -/
inductive ChartType where
  | bar
  | line
deriving Repr, DecidableEq

/-- The figure `create_chart` hands to `st.pyplot` for a valid spec:
categories and values in the given order, plus the title and axis labels
with their Chinese-language defaults filled in (lines 161-163 and
171-173 of `main.py`). -/
structure RenderedChart where
  kind : ChartType
  xs : List String
  ys : List Int
  title : String
  xLabel : String
  yLabel : String
deriving Repr, DecidableEq

/-- The figure built by the bar or line branch of `create_chart`. -/
def renderChart (input : ChartSpec) : ChartType → RenderedChart
  | ChartType.bar =>
    { kind := ChartType.bar, xs := input.columns, ys := input.data,
      title := input.title.getD "统计图表",
      xLabel := input.x_label.getD "类别",
      yLabel := input.y_label.getD "数值" }
  | ChartType.line =>
    { kind := ChartType.line, xs := input.columns, ys := input.data,
      title := input.title.getD "趋势图表",
      xLabel := input.x_label.getD "时间/类别",
      yLabel := input.y_label.getD "数值" }

/-- Message of the `OSError` raised by `plt.style.use` at line 139: the
argument `seaborn-white grid` (embedded space, a typo for
`seaborn-whitegrid`) is not a valid matplotlib style in any version, not
a style file, and not a URL, so the call raises on every invocation. -/
def style_use_error : String :=
  "seaborn-white grid is not a valid package style, path of style file, URL of style file, or library style name"

/-- `create_chart` (lines 137-177), statement by statement: first
`plt.style.use` with the invalid constant style name, which raises
`OSError` unconditionally; then (unreachably) the `pd.DataFrame`
construction over `columns` and `data`, which raises `ValueError` when
the two lists differ in length; then the requested branch renders the
figure. -/
def create_chart (input : ChartSpec) (chart_type : ChartType) :
    Except String RenderedChart :=
  match (Except.error style_use_error : Except String Unit) with
  | Except.error m => Except.error m
  | Except.ok _ =>
    if input.columns.length ≠ input.data.length then
      Except.error "All arrays must be of the same length"
    else Except.ok (renderChart input chart_type)

/-- A table spec inside an Analysis Result: the dict with `data` rows and
`columns` passed to `pd.DataFrame` by the table branch of
`display_result`. -/
structure TableSpec where
  data : List (List String)
  columns : List String
deriving Repr, DecidableEq

/-- An Analysis Result: the dict with the four independently optional
keys `answer`, `table`, `bar`, `line`. -/
structure AnalysisResult where
  answer : Option String
  table : Option TableSpec
  bar : Option ChartSpec
  line : Option ChartSpec
deriving Repr, DecidableEq

/-- One UI section emitted by `display_result`: narrative expander, data
table, bar chart, or line chart. -/
inductive RenderSection where
  | answerSec (text : String)
  | tableSec (t : TableSpec)
  | barSec (c : RenderedChart)
  | lineSec (c : RenderedChart)
deriving Repr, DecidableEq

/-- The final text shown by the progressive-display loop (lines 247-253):
the answer is split on whitespace (empty tokens dropped, as Python
`str.split()` does) and the tokens are re-joined with a trailing space
each. -/
def finalAnswerText (a : String) : String :=
  String.join
    (((a.split fun c => c.isWhitespace).filter fun t => t != "").map
      fun t => t ++ " ")

/-- Render one optional chart key, threading Python exception state: if a
previous section already raised, nothing further runs; a present chart
key raises (via `create_chart`) after the earlier sections were already
drawn, so earlier output is kept and later sections are skipped. -/
def appendChart (acc : List RenderSection × Option String)
    (oc : Option ChartSpec) (t : ChartType)
    (mk : RenderedChart → RenderSection) :
    List RenderSection × Option String :=
  match acc.2 with
  | some m => (acc.1, some m)
  | none =>
    match oc with
    | none => acc
    | some c =>
      match create_chart c t with
      | Except.error m => (acc.1, some m)
      | Except.ok rc => (acc.1 ++ [mk rc], none)

/-- `display_result` (lines 243-269): check the four keys independently,
in the fixed order answer, table, bar, line, and render each present one.
Returns the sections drawn and the message of the exception that escaped
the function, if any (a chart with mismatched lengths raises). -/
def display_result (res : AnalysisResult) :
    List RenderSection × Option String :=
  let s1 : List RenderSection :=
    match res.answer with
    | some a => [RenderSection.answerSec (finalAnswerText a)]
    | none => []
  let s2 : List RenderSection :=
    match res.table with
    | some t => [RenderSection.tableSec t]
    | none => []
  appendChart
    (appendChart (s1 ++ s2, none) res.bar ChartType.bar RenderSection.barSec)
    res.line ChartType.line RenderSection.lineSec

/-- The Streamlit session state slots the pipeline reads and writes:
`df`, `text_content`, `uploaded_file` (modelled by its name), and
`input_url` (`none` before the URL widget ever ran, `some ""` when it is
empty). -/
structure SessionState where
  df : Option Frame
  text_content : Option String
  uploaded_file : Option String
  input_url : Option String
deriving Repr, DecidableEq

/-- The session state after the initialization block at lines 22-29:
every slot `None`. -/
def initState : SessionState :=
  { df := none, text_content := none, uploaded_file := none,
    input_url := none }

/-- The two values of the `input_method` radio widget. -/
inductive InputMethod where
  | upload
  | url
deriving Repr, DecidableEq

/-- One ingestion performed by the preview blocks (lines 332-392), with
the already-parsed payload: the Excel/CSV branches store a frame in `df`;
the Word/HTML/PDF branches store text in `text_content`; a URL fetch
stores the first extracted table in `df` when the page is HTML with
tables, stores nothing when it is HTML without tables or failed, and
stores text otherwise. -/
inductive IngestEvent where
  | excelUpload (f : Frame)
  | csvUpload (f : Frame)
  | wordUpload (t : String)
  | htmlUpload (t : String)
  | pdfUpload (t : String)
  | urlHtmlTables (first : Frame)
  | urlHtmlNoTables
  | urlText (t : String)
  | urlError
deriving Repr, DecidableEq

/-- Effect of one ingestion on the session state.  None of the branches
in `main.py` assigns the other content slot, so storing a frame leaves
`text_content` alone and storing text leaves `df` alone. -/
def ingest (e : IngestEvent) (s : SessionState) : SessionState :=
  match e with
  | IngestEvent.excelUpload f => { s with df := some f }
  | IngestEvent.csvUpload f => { s with df := some f }
  | IngestEvent.wordUpload t => { s with text_content := some t }
  | IngestEvent.htmlUpload t => { s with text_content := some t }
  | IngestEvent.pdfUpload t => { s with text_content := some t }
  | IngestEvent.urlHtmlTables f => { s with df := some f }
  | IngestEvent.urlHtmlNoTables => s
  | IngestEvent.urlText t => { s with text_content := some t }
  | IngestEvent.urlError => s

/-- One UI interaction that mutates session state: a widget writing the
raw source slot, or an ingestion. -/
inductive Step where
  | widgetUpload (v : Option String)
  | widgetUrl (v : Option String)
  | ingestStep (e : IngestEvent)
deriving Repr, DecidableEq

/-- Apply one interaction to the session state. -/
def stepRun : Step → SessionState → SessionState
  | Step.widgetUpload v, s => { s with uploaded_file := v }
  | Step.widgetUrl v, s => { s with input_url := v }
  | Step.ingestStep e, s => ingest e s

/-- Run a sequence of interactions from a starting state; the states this
reaches from `initState` are the reachable session states. -/
def runSteps (es : List Step) (s : SessionState) : SessionState :=
  es.foldl (fun acc e => stepRun e acc) s

/-- Whether a frame-storing ingestion (Excel, CSV, or an HTML page with
tables) is being performed. -/
def setsFrame : IngestEvent → Bool
  | IngestEvent.excelUpload _ => true
  | IngestEvent.csvUpload _ => true
  | IngestEvent.urlHtmlTables _ => true
  | _ => false

/-- Whether a text-storing ingestion (Word, HTML file, PDF, or a non-HTML
URL payload) is being performed. -/
def setsText : IngestEvent → Bool
  | IngestEvent.wordUpload _ => true
  | IngestEvent.htmlUpload _ => true
  | IngestEvent.pdfUpload _ => true
  | IngestEvent.urlText _ => true
  | _ => false

/-- The guard at lines 409-410: under file upload the raw uploaded file
must be present; under URL input the url string must be non-falsy (Python
treats both `None` and the empty string as falsy). -/
def sourceMissing (method : InputMethod) (s : SessionState) : Bool :=
  match method with
  | InputMethod.upload => s.uploaded_file.isNone
  | InputMethod.url => s.input_url == none || s.input_url == some ""

/-- The `disabled` argument of the query `st.text_area` (line 402): the
box is disabled while neither a frame nor text has been ingested. -/
def query_input_disabled (s : SessionState) : Bool :=
  s.df.isNone && s.text_content.isNone

/-- The analyze `st.button` (line 408) is created without a `disabled`
argument, so it is always enabled. -/
def analyze_button_disabled (_ : SessionState) : Bool :=
  false

/-- Lines 417-420: the dispatch inside the `try` block.  A stored frame
takes the agent path; otherwise the text path builds the echo result with
the fixed label and the first 3000 characters of the stored text.  With
neither slot set, Python raises `TypeError` on `None[:3000]`. -/
def analyze_dispatch (agent : Frame → String → Except String AnalysisResult)
    (df : Option Frame) (text : Option String) (query : String) :
    Except String AnalysisResult :=
  match df with
  | some f => agent f query
  | none =>
    match text with
    | some t =>
      Except.ok
        { answer := some ("文本分析结果:\n\n" ++ pyPrefix t 3000),
          table := none, bar := none, line := none }
    | none => Except.error "NoneType object is not subscriptable"

/-- What one click of the analyze button shows: warnings, error banners,
rendered sections. -/
structure HandlerOutput where
  warnings : List String
  errors : List String
  sections : List RenderSection
deriving Repr, DecidableEq

/-- The analyze-button handler (lines 408-423): validate source and
query, then run dispatch and display inside `try`, mapping any raise to
one `st.error` banner.  The handler never assigns session state, so the
state component of the result is the input state. -/
def analyze_button (agent : Frame → String → Except String AnalysisResult)
    (method : InputMethod) (s : SessionState) (query : String) :
    SessionState × HandlerOutput :=
  if sourceMissing method s then
    (s, { warnings := ["请先提供数据源"], errors := [], sections := [] })
  else if query = "" then
    (s, { warnings := ["请输入分析需求"], errors := [], sections := [] })
  else
    match analyze_dispatch agent s.df s.text_content query with
    | Except.error m =>
      (s, { warnings := [], errors := ["分析过程中发生错误: " ++ m],
            sections := [] })
    | Except.ok res =>
      let out := display_result res
      (s, { warnings := [],
            errors :=
              (match out.2 with
               | some m => ["分析过程中发生错误: " ++ m]
               | none => []),
            sections := out.1 })

/-! Concrete objects used by witnesses and counterexamples. -/

/-- A one-column demo frame. -/
def demoFrame : Frame := { columns := ["a"], data := [["1"]] }

/-- An agent that is never reached on the text path. -/
def demoAgent : Frame → String → Except String AnalysisResult :=
  fun _ _ => Except.error "agent unused"

/-- Sections contributed by the `answer` key. -/
def answerSections : Option String → List RenderSection
  | some a => [RenderSection.answerSec (finalAnswerText a)]
  | none => []

/-- Sections contributed by the `table` key. -/
def tableSections : Option TableSpec → List RenderSection
  | some t => [RenderSection.tableSec t]
  | none => []

/-- Enumerating all-successful table parses yields one tagged frame per
table, tagged `table_<i + j>` at position `j`, in order. -/
theorem tagTables_all_ok (ts : List TableParse) (i : Nat)
    (h : ts.all exceptIsOk = true) :
    ∃ tfs, tagTables i ts = Except.ok tfs ∧ tfs.length = ts.length ∧
      ∀ j, j < ts.length → ∃ f,
        ts.get? j = some (Except.ok f) ∧
        tfs.get? j = some { table_id := "table_" ++ toString (i + j), frame := f } := by
  induction ts generalizing i with
  | nil =>
    exact ⟨[], rfl, rfl, fun j hj => absurd hj (by simp)⟩
  | cons e rest ih =>
    rw [List.all_cons, Bool.and_eq_true] at h
    cases e with
    | error m => simp [exceptIsOk] at h
    | ok f =>
      obtain ⟨tfs, htag, hlen, hidx⟩ := ih (i + 1) h.2
      refine ⟨{ table_id := "table_" ++ toString i, frame := f } :: tfs, ?_, ?_, ?_⟩
      · simp [tagTables, htag]
      · simp [hlen]
      · intro j hj
        cases j with
        | zero => exact ⟨f, rfl, by simp⟩
        | succ k =>
          have hk : k < rest.length := by simpa using hj
          obtain ⟨g, hg1, hg2⟩ := hidx k hk
          refine ⟨g, by simpa using hg1, ?_⟩
          have harith : i + 1 + k = i + (k + 1) := by omega
          have hcons :
              (({ table_id := "table_" ++ toString i, frame := f } : TaggedFrame)
                :: tfs).get? (k + 1) = tfs.get? k := rfl
          rw [hcons, ← harith]
          exact hg2

/-- C1 counterexample: with stored text `"hello"` the text path returns
the answer `"文本分析结果:\n\nhello"`, which is not the bare 3000-character
prefix of the text — a label is prepended. -/
theorem text_echo_adds_label :
    analyze_dispatch demoAgent none (some "hello") "q"
      = Except.ok { answer := some "文本分析结果:\n\nhello",
                    table := none, bar := none, line := none } ∧
    "文本分析结果:\n\nhello" ≠ pyPrefix "hello" 3000 :=
  ⟨rfl, by decide⟩

/-- C1 (amended): on text-only content and a non-empty query, the
narrative answer is the fixed label `文本分析结果:` and a blank line,
followed by the first 3000 characters of the stored text; no other key is
populated and the agent is not consulted. -/
theorem text_echo_labeled
    (agent : Frame → String → Except String AnalysisResult)
    (t q : String) (_hq : q ≠ "") :
    analyze_dispatch agent none (some t) q
      = Except.ok { answer := some ("文本分析结果:\n\n" ++ pyPrefix t 3000),
                    table := none, bar := none, line := none } := rfl

/-- C1 witness: the amended claim at text `"hello"`, query `"q"`. -/
theorem text_echo_labeled_witness :
    analyze_dispatch demoAgent none (some "hello") "q"
      = Except.ok { answer := some ("文本分析结果:\n\n" ++ pyPrefix "hello" 3000),
                    table := none, bar := none, line := none } :=
  text_echo_labeled demoAgent "hello" "q" (by decide)

/-- C2: `fetch_url_content` is total and tags every outcome: the result
status is always `"error"` or `"success"`; a raised network exception
becomes the error dict with its message; a 4xx/5xx status becomes the
error dict with the `raise_for_status` message; a `read_html` failure
during HTML classification becomes the error dict with its message. -/
theorem fetch_url_content_total (net : String → NetResult) (url : String) :
    (fetchStatus (fetch_url_content net url) = "error" ∨
      fetchStatus (fetch_url_content net url) = "success") ∧
    (∀ m, net (resolveUrl url) = NetResult.err m →
      fetch_url_content net url = FetchResult.errorResult m) ∧
    (∀ r, net (resolveUrl url) = NetResult.ok r → 400 ≤ r.status →
      fetch_url_content net url = FetchResult.errorResult (http_error_message r)) ∧
    (∀ r m, net (resolveUrl url) = NetResult.ok r → r.status < 400 →
      strContains r.contentType "text/html" = true →
      tagTables 0 r.findTables = Except.error m →
      fetch_url_content net url = FetchResult.errorResult m) := by
  refine ⟨?_, ?_, ?_, ?_⟩
  · cases h : fetch_url_content net url <;> simp [fetchStatus]
  · intro m hm
    simp [fetch_url_content, hm, processResponse]
  · intro r hr hs
    simp [fetch_url_content, hr, processResponse, hs]
  · intro r m hr hs hct htag
    have hns : ¬ 400 ≤ r.status := by omega
    simp [fetch_url_content, hr, processResponse, hns, hct, htag]

/-- C2 witness: a network raise with message `"boom"` is returned as the
error dict. -/
theorem fetch_url_content_total_witness :
    fetch_url_content (fun _ => NetResult.err "boom") "example.com"
      = FetchResult.errorResult "boom" :=
  (fetch_url_content_total (fun _ => NetResult.err "boom") "example.com").2.1
    "boom" rfl

/-- C3: a successful HTML response whose tables all parse yields exactly
one tagged frame per table element, tagged `table_0` … in document order,
returned together with the stripped whole-page text. -/
theorem fetch_html_tables (net : String → NetResult) (url : String)
    (r : HttpResponse)
    (hnet : net (resolveUrl url) = NetResult.ok r)
    (hstatus : r.status < 400)
    (hct : strContains r.contentType "text/html" = true)
    (hparse : r.findTables.all exceptIsOk = true) :
    ∃ tfs,
      fetch_url_content net url = FetchResult.htmlResult tfs r.strippedText ∧
      tfs.length = r.findTables.length ∧
      ∀ j, j < r.findTables.length → ∃ f,
        r.findTables.get? j = some (Except.ok f) ∧
        tfs.get? j = some { table_id := "table_" ++ toString j, frame := f } := by
  obtain ⟨tfs, htag, hlen, hidx⟩ := tagTables_all_ok r.findTables 0 hparse
  have hns : ¬ 400 ≤ r.status := by omega
  refine ⟨tfs, ?_, hlen, ?_⟩
  · simp [fetch_url_content, hnet, processResponse, hns, hct, htag]
  · intro j hj
    obtain ⟨f, h1, h2⟩ := hidx j hj
    exact ⟨f, h1, by simpa using h2⟩

/-- First demo frame extracted from the demo page. -/
def frameA : Frame := { columns := ["a"], data := [["1"]] }

/-- Second demo frame extracted from the demo page. -/
def frameB : Frame := { columns := ["b"], data := [["2"]] }

/-- A successful HTML response carrying two parseable tables. -/
def demoHtmlResp : HttpResponse :=
  { status := 200, contentType := "text/html; charset=utf-8",
    text := "<html>page</html>",
    findTables := [Except.ok frameA, Except.ok frameB],
    strippedText := "Visible page text",
    pdfPages := Except.ok [] }

/-- A network that always returns the demo HTML response. -/
def demoNet : String → NetResult := fun _ => NetResult.ok demoHtmlResp

/-- C3 witness: the demo page with two tables yields two frames tagged
`table_0`, `table_1`, together with the stripped text. -/
theorem fetch_html_tables_witness :
    ∃ tfs,
      fetch_url_content demoNet "example.com"
        = FetchResult.htmlResult tfs demoHtmlResp.strippedText ∧
      tfs.length = demoHtmlResp.findTables.length ∧
      ∀ j, j < demoHtmlResp.findTables.length → ∃ f,
        demoHtmlResp.findTables.get? j = some (Except.ok f) ∧
        tfs.get? j = some { table_id := "table_" ++ toString j, frame := f } :=
  fetch_html_tables demoNet "example.com" demoHtmlResp rfl (by decide)
    (by decide) (by decide)

/-- A bar spec with two labels but one value. -/
def badBar : ChartSpec :=
  { columns := ["a", "b"], data := [1], title := none, x_label := none,
    y_label := none }

/-- C4 code bug (evaluated at the failing input): on the mismatched demo
spec, `create_chart` fails with the `plt.style.use` `OSError` raised at
line 139 before the `pd.DataFrame` length check, not with the length
validation error the claim states — that check is unreachable — and no
chart output is produced. -/
theorem create_chart_mismatch_hits_style_error :
    badBar.columns.length ≠ badBar.data.length ∧
    create_chart badBar ChartType.bar = Except.error style_use_error ∧
    style_use_error ≠ "All arrays must be of the same length" ∧
    ∀ rc, create_chart badBar ChartType.bar ≠ Except.ok rc := by
  refine ⟨by decide, rfl, by decide, ?_⟩
  intro rc hrc
  exact Except.noConfusion hrc

/-- A bar spec with matching labels and values. -/
def goodBar : ChartSpec :=
  { columns := ["a", "b"], data := [1, 2], title := none, x_label := none,
    y_label := none }

/-- A line spec with matching labels and values. -/
def goodLine : ChartSpec :=
  { columns := ["x"], data := [3], title := some "t", x_label := none,
    y_label := none }

/-- A result carrying all four keys, with valid chart specs. -/
def fullResult : AnalysisResult :=
  { answer := some "hello world",
    table := some { data := [["1"]], columns := ["a"] },
    bar := some goodBar, line := some goodLine }

/-- C5 code bug (evaluated at the failing inputs): the four keys are
checked independently, but because `plt.style.use` at line 139 raises on
every `create_chart` call, a result with all four keys renders only the
narrative and table sections — the bar branch raises and the line branch
is never reached — and a result with only the `bar` key renders nothing,
the exception escaping `display_result` in both cases. -/
theorem display_result_charts_never_render :
    display_result fullResult
      = (answerSections fullResult.answer ++ tableSections fullResult.table,
         some style_use_error) ∧
    display_result
        { answer := none, table := none, bar := some goodBar, line := none }
      = ([], some style_use_error) :=
  ⟨rfl, rfl⟩

/-- C6: an address with no scheme is requested with `https://` prefixed
(in particular `example.com/data` becomes `https://example.com/data`),
and an address that already carries a scheme is requested unchanged. -/
theorem resolveUrl_adds_https (url : String) :
    (urlparse_scheme url = "" → resolveUrl url = "https://" ++ url) ∧
    (urlparse_scheme url ≠ "" → resolveUrl url = url) ∧
    resolveUrl "example.com/data" = "https://example.com/data" := by
  refine ⟨fun h => ?_, fun h => ?_, ?_⟩
  · simp [resolveUrl, h]
  · simp [resolveUrl, h]
  · rfl

/-- C6 witness: the scheme-less and the scheme-carrying example. -/
theorem resolveUrl_adds_https_witness :
    resolveUrl "example.com/data" = "https://example.com/data" ∧
    resolveUrl "https://example.com/data" = "https://example.com/data" :=
  ⟨(resolveUrl_adds_https "example.com/data").2.2,
   (resolveUrl_adds_https "https://example.com/data").2.1 (by decide)⟩

/-- C7 counterexample: ingesting a CSV frame and then a Word document
reaches a session state holding both a frame and a text blob — no
ingestion clears the other slot. -/
theorem session_holds_frame_and_text :
    (runSteps [Step.ingestStep (IngestEvent.csvUpload demoFrame),
               Step.ingestStep (IngestEvent.wordUpload "report text")]
        initState).df = some demoFrame ∧
    (runSteps [Step.ingestStep (IngestEvent.csvUpload demoFrame),
               Step.ingestStep (IngestEvent.wordUpload "report text")]
        initState).text_content = some "report text" :=
  ⟨rfl, rfl⟩

/-- C7 (amended): ingestion does not clear the other slot — a
frame-storing ingestion leaves `text_content` unchanged and a
text-storing ingestion leaves `df` unchanged, so a session can hold both
canonical content objects at once. -/
theorem ingest_preserves_other_slot (e : IngestEvent) (s : SessionState) :
    (setsFrame e = true → (ingest e s).text_content = s.text_content) ∧
    (setsText e = true → (ingest e s).df = s.df) := by
  cases e <;> simp [setsFrame, setsText, ingest]

/-- C7 witness: the amended claim at the CSV and Word ingestions. -/
theorem ingest_preserves_other_slot_witness :
    (ingest (IngestEvent.csvUpload demoFrame) initState).text_content
      = initState.text_content ∧
    (ingest (IngestEvent.wordUpload "x") initState).df = initState.df :=
  ⟨(ingest_preserves_other_slot (IngestEvent.csvUpload demoFrame) initState).1 rfl,
   (ingest_preserves_other_slot (IngestEvent.wordUpload "x") initState).2 rfl⟩

/-- C8: when the stored frame is dispatched and the agent raises, the
handler catches it, shows exactly one error banner carrying the message,
renders nothing, and returns the session state unchanged. -/
theorem agent_error_caught
    (agent : Frame → String → Except String AnalysisResult)
    (method : InputMethod) (s : SessionState) (query : String)
    (f : Frame) (m : String)
    (hsrc : sourceMissing method s = false) (hq : query ≠ "")
    (hdf : s.df = some f) (hagent : agent f query = Except.error m) :
    analyze_button agent method s query
      = (s, { warnings := [], errors := ["分析过程中发生错误: " ++ m],
              sections := [] }) := by
  simp [analyze_button, hsrc, hq, analyze_dispatch, hdf, hagent]

/-- A state holding a frame with its raw upload present. -/
def stateWithFrame : SessionState :=
  { df := some demoFrame, text_content := none,
    uploaded_file := some "data.csv", input_url := none }

/-- An agent that always raises. -/
def raisingAgent : Frame → String → Except String AnalysisResult :=
  fun _ _ => Except.error "LLM timeout"

/-- C8 witness: a raising agent at a concrete frame-holding state. -/
theorem agent_error_caught_witness :
    analyze_button raisingAgent InputMethod.upload stateWithFrame "平均值"
      = (stateWithFrame,
         { warnings := [], errors := ["分析过程中发生错误: " ++ "LLM timeout"],
           sections := [] }) :=
  agent_error_caught raisingAgent InputMethod.upload stateWithFrame "平均值"
    demoFrame "LLM timeout" rfl (by decide) rfl rfl

/-- C9 counterexample: in the initial state — no source, no ingested
content, empty query — the analyze button is still enabled (it is created
without a `disabled` argument). -/
theorem analyze_button_enabled_without_source :
    initState.df = none ∧ initState.text_content = none ∧
    initState.uploaded_file = none ∧ initState.input_url = none ∧
    analyze_button_disabled initState = false :=
  ⟨rfl, rfl, rfl, rfl, rfl⟩

/-- C9 (amended): the analyze button is always enabled (only the query
input is disabled until content is ingested); clicking with the raw
source missing, or with an empty query, emits exactly one warning and no
pipeline invocation — no agent call, no sections, no errors, for every
agent. -/
theorem analyze_guard_blocks_pipeline
    (agent : Frame → String → Except String AnalysisResult)
    (method : InputMethod) (s : SessionState) (query : String) :
    analyze_button_disabled s = false ∧
    query_input_disabled s = (s.df.isNone && s.text_content.isNone) ∧
    (sourceMissing method s = true →
      analyze_button agent method s query
        = (s, { warnings := ["请先提供数据源"], errors := [], sections := [] })) ∧
    (sourceMissing method s = false → query = "" →
      analyze_button agent method s query
        = (s, { warnings := ["请输入分析需求"], errors := [], sections := [] })) := by
  refine ⟨rfl, rfl, fun h => ?_, fun h hq => ?_⟩
  · simp [analyze_button, h]
  · simp [analyze_button, h, hq]

/-- C9 witness: clicking in the initial state warns about the missing
source. -/
theorem analyze_guard_blocks_pipeline_witness :
    analyze_button demoAgent InputMethod.upload initState ""
      = (initState,
         { warnings := ["请先提供数据源"], errors := [], sections := [] }) :=
  (analyze_guard_blocks_pipeline demoAgent InputMethod.upload initState "").2.2.1
    rfl

/-- C10: with both a frame and text stored, dispatch goes to the external
agent with the frame; the text-echo path runs only when the frame is
absent, and then for every agent alike. -/
theorem dispatch_frame_precedence
    (agent : Frame → String → Except String AnalysisResult)
    (f : Frame) (t : String) (query : String) :
    analyze_dispatch agent (some f) (some t) query = agent f query ∧
    (∀ g : Frame → String → Except String AnalysisResult,
      analyze_dispatch g none (some t) query
        = Except.ok { answer := some ("文本分析结果:\n\n" ++ pyPrefix t 3000),
                      table := none, bar := none, line := none }) :=
  ⟨rfl, fun _ => rfl⟩

end Dinosaur
